import Mathlib

/-!
Shallow embedding of the PlasmaPy Stix cold-plasma dispersion solver
(src/plasmapy/dispersion/numerical/stix_.py) and of the collisional
timescale module (src/plasmapy/formulary/collisions/timescales.py),
together with theorems settling the frozen claims about them.

Machine floats are modelled by real numbers; numpy arrays by lists; the
Python exception flow by an Except monad over explicit error kinds.
External collaborators (plasma_frequency, gyrofrequency, numpy root
finding, numpy sorting, the Coulomb logarithm) are parameters of the
embedded functions, as the specification treats them as external.
-/

noncomputable section

/-- Particle model: the attributes of a resolved species that the two
modules actually read (is_ion, charge_number for validation and
quasineutrality; charge and mass for the timescale bodies). -/
structure Particle where
  is_ion : Bool
  charge_number : ℤ
  charge : ℝ
  mass : ℝ
deriving DecidableEq

/-- Electron species appended by stix (Particle("e-")); SI charge and mass. -/
def electron : Particle := ⟨false, -1, -1.602176634e-19, 9.1093837015e-31⟩

/-- Proton-like test species (Particle("H+")). -/
def proton : Particle := ⟨true, 1, 1.602176634e-19, 1.67262192369e-27⟩

/-- Value of astropy.constants.si.c, exactly 299792458.0 (stix_.py line 17). -/
def c_si_unitless : ℝ := 299792458

/-- Scalar, 1-D or 2-D numpy input, as far as the validated code inspects it. -/
inductive NDIn : Type where
  | scalar (x : ℝ)
  | oneD (xs : List ℝ)
  | twoD (xss : List (List ℝ))

/-- Model of numpy squeeze on an NDIn: axes of length one are removed. -/
def ndSqueeze : NDIn → NDIn
  | .scalar x => .scalar x
  | .oneD [x] => .scalar x
  | .oneD xs => .oneD xs
  | .twoD [[x]] => .scalar x
  | .twoD [row] => .oneD row
  | .twoD xss =>
      if xss.all (fun r => r.length = 1) then .oneD (xss.map (fun r => r.headD 0))
      else .twoD xss

/-- Error kinds of the embedded stix function.  thetaNameErrorK models the
UnboundLocalError raised while the f-string of the theta shape branch
evaluates the reference to the local variable k, which is only assigned
later (stix_.py line 212); Python raises it before the intended TypeError
is ever constructed.  numpyRagged models the failure of numpy to build a
rank-1 coefficient array when the Stix parameters are arrays over more
than one wave frequency (the case the spec flags as under-specified). -/
inductive StixErr : Type where
  | invalidIons
  | niShape
  | niLength
  | bShape
  | wShape
  | wSign
  | thetaNameErrorK
  | numpyRagged
deriving DecidableEq

/-- Validation of the ions argument (stix_.py lines 156-161): every species
must be an ion with positive charge number. -/
def checkIons (ions : List Particle) : Except StixErr Unit :=
  if ions.all (fun p => p.is_ion && decide (0 < p.charge_number)) then .ok ()
  else .error .invalidIons

/-- Validation of the n_i argument (stix_.py lines 164-173): more than one
dimension is a shape error; a 1-D array must have the length of ions. -/
def checkNi (ni : NDIn) (k : ℕ) : Except StixErr Unit :=
  match ni with
  | .twoD _ => .error .niShape
  | .oneD xs => if xs.length ≠ k then .error .niLength else .ok ()
  | .scalar _ => .ok ()

/-- Normalisation of the n_i argument (stix_.py lines 175-179): a scalar is
broadcast to one value per ion; a size-one array is np.repeat-ed. -/
def normNi (ni : NDIn) (k : ℕ) : List ℝ :=
  match ni with
  | .scalar v => List.replicate k v
  | .oneD xs => if xs.length = 1 then List.replicate k (xs.headD 0) else xs
  | .twoD _ => []

/-- Species sequence built by stix (line 181): the ions with one electron
appended. -/
def stixSpecies (ions : List Particle) : List Particle := ions ++ [electron]

/-- Density vector built by stix (lines 182-184): the ion densities with the
quasineutrality electron density np.sum(n_i * ions.charge_number) appended. -/
def stixDensities (ni : List ℝ) (ions : List Particle) : List ℝ :=
  ni ++ [((ni.zip ions).map (fun p => p.1 * (p.2.charge_number : ℝ))).sum]

/-- Validation of the B argument (stix_.py lines 187-192): after squeeze it
must be zero-dimensional. -/
def checkB (b : NDIn) : Except StixErr ℝ :=
  match ndSqueeze b with
  | .scalar x => .ok x
  | .oneD _ => .error .bShape
  | .twoD _ => .error .bShape

/-- Validation of the w argument (stix_.py lines 195-204): after squeeze at
most one dimension, no nonpositive entry, and a scalar is wrapped into a
one-element array. -/
def checkW (w : NDIn) : Except StixErr (List ℝ) :=
  match ndSqueeze w with
  | .twoD _ => .error .wShape
  | .scalar x => if x ≤ 0 then .error .wSign else .ok [x]
  | .oneD xs =>
      if xs.any (fun x => decide (x ≤ 0)) then .error .wSign else .ok xs

/-- Validation of the theta argument (stix_.py lines 207-215).  When theta
has more than one dimension after squeezing, the raise statement first
evaluates its message f-string, which reads the not-yet-assigned local k,
so the branch actually raises UnboundLocalError (modelled by
thetaNameErrorK) instead of the written TypeError. -/
def checkTheta (th : NDIn) : Except StixErr (List ℝ) :=
  match ndSqueeze th with
  | .twoD _ => .error .thetaNameErrorK
  | .scalar x => .ok [x]
  | .oneD xs => .ok xs

/-- Stix parameter loop (stix_.py lines 228-235): starting from S = 1,
P = 1, D = 0, each species subtracts or adds its term. -/
def stixSPD (wps wcs : List ℝ) (w : ℝ) : ℝ × ℝ × ℝ :=
  (wps.zip wcs).foldl
    (fun SPD p =>
      (SPD.1 - p.1 ^ 2 / (w ^ 2 + p.2 ^ 2),
       SPD.2.1 - (p.1 / w) ^ 2,
       SPD.2.2 + p.1 ^ 2 / (w ^ 2 + p.2 ^ 2) * (p.2 / w)))
    (1, 1, 0)

/-- Per-angle polynomial coefficients A, B, C (stix_.py lines 237-252), with
R = S + D and L = S - D derived as in the code. -/
def stixABC (wps wcs : List ℝ) (w θ : ℝ) : ℝ × ℝ × ℝ :=
  let SPD := stixSPD wps wcs w
  let S := SPD.1
  let P := SPD.2.1
  let D := SPD.2.2
  let R := S + D
  let L := S - D
  (S * Real.sin θ ^ 2 + P * Real.cos θ ^ 2,
   -(R * L * Real.sin θ ^ 2 + P * S * (1 + Real.cos θ ^ 2)),
   P * R * L)

/-- Coefficient list passed to np.roots at each angle (stix_.py lines
257-262): arg_ = c/w scales only the degree-4 and degree-2 coefficients,
and the constant coefficient C is left unscaled. -/
def stixCoeffs (wps wcs : List ℝ) (w θ : ℝ) : List ℝ :=
  let q := c_si_unitless / w
  [q * (stixABC wps wcs w θ).1, 0, q * (stixABC wps wcs w θ).2.1, 0,
   (stixABC wps wcs w θ).2.2]

/-- Per-angle result value (stix_.py lines 263-264): the external numpy root
finder applied to the coefficient list, then the external numpy sort. -/
def stixRootsFor (solver : List ℝ → List ℂ) (sorter : List ℂ → List ℂ)
    (wps wcs : List ℝ) (w θ : ℝ) : List ℂ :=
  sorter (solver (stixCoeffs wps wcs w θ))

/-- Python dict insertion: an existing key has its value overwritten in
place, a new key is appended. -/
def pydictInsert {α : Type} (acc : List (ℝ × α)) (kv : ℝ × α) : List (ℝ × α) :=
  if kv.1 ∈ acc.map Prod.fst then
    acc.map (fun p => if p.1 = kv.1 then (p.1, kv.2) else p)
  else acc ++ [kv]

/-- Python dict built from a sequence of key-value insertions. -/
def pydict {α : Type} (ps : List (ℝ × α)) : List (ℝ × α) :=
  ps.foldl pydictInsert []

/-- Model of the length of the array returned by numpy.roots on a
coefficient list: numpy strips leading zero coefficients (reducing the
degree) and the remaining polynomial of degree d contributes d roots
(trailing zeros are stripped and re-appended as zero roots, leaving the
count equal to the degree after the leading strip). -/
def npRootsLen : List ℝ → ℕ
  | [] => 0
  | x :: xs => if x = 0 then npRootsLen xs else xs.length

/-- Horner evaluation of a numpy-style coefficient list (highest degree
first) at a point. -/
def evalPoly (cs : List ℝ) (x : ℝ) : ℝ :=
  cs.foldl (fun acc c => acc * x + c) 0

/-- Spec-side definition, following the words of the claim for comparison
with the code: the biquadratic a x^4 + b x^2 + c evaluated at the reduced
variable x. -/
def specBiquadResidual (a b c x : ℝ) : ℝ := a * x ^ 4 + b * x ^ 2 + c

/-- Spec-side definition of S(w) = 1 - sum wp^2 / (w^2 + wc^2). -/
def specS (wps wcs : List ℝ) (w : ℝ) : ℝ :=
  1 - ((wps.zip wcs).map (fun p => p.1 ^ 2 / (w ^ 2 + p.2 ^ 2))).sum

/-- Spec-side definition of P(w) = 1 - sum (wp / w)^2. -/
def specP (wps wcs : List ℝ) (w : ℝ) : ℝ :=
  1 - ((wps.zip wcs).map (fun p => (p.1 / w) ^ 2)).sum

/-- Spec-side definition of D(w) = sum (wp^2 / (w^2 + wc^2)) (wc / w). -/
def specD (wps wcs : List ℝ) (w : ℝ) : ℝ :=
  ((wps.zip wcs).map (fun p => p.1 ^ 2 / (w ^ 2 + p.2 ^ 2) * (p.2 / w))).sum

/-- Embedded stix function (stix_.py lines 151-266), parameterised by the
external collaborators: pf models plasma_frequency(density, species), gf
models gyrofrequency(field, species, signed=False), solver models
numpy.roots and sorter models numpy.sort on complex arrays.  The result is
the angle-keyed dict of root arrays. -/
def stixRun (pf gf : ℝ → Particle → ℝ)
    (solver : List ℝ → List ℂ) (sorter : List ℂ → List ℂ)
    (Bf w ni th : NDIn) (ions : List Particle) :
    Except StixErr (List (ℝ × List ℂ)) :=
  match checkIons ions with
  | .error e => .error e
  | .ok _ =>
    match checkNi ni ions.length with
    | .error e => .error e
    | .ok _ =>
      let niL := normNi ni ions.length
      let species := stixSpecies ions
      let densities := stixDensities niL ions
      match checkB Bf with
      | .error e => .error e
      | .ok B0 =>
        match checkW w with
        | .error e => .error e
        | .ok ws =>
          match checkTheta th with
          | .error e => .error e
          | .ok thetas =>
            let wps := (species.zip densities).map (fun sd => pf sd.2 sd.1)
            let wcs := (species.zip densities).map (fun sd => gf B0 sd.1)
            if 1 < ws.length ∧ thetas.length ≠ 0 then .error .numpyRagged
            else
              let w0 := ws.headD 1
              .ok (pydict (thetas.map
                (fun t => (t, stixRootsFor solver sorter wps wcs w0 t))))

/-!
Embedding of the timescale module (timescales.py).  An astropy Quantity is
modelled by its shape and its flat data; the validate namespace becomes a
family of Except-valued functions.
-/

/-- Quantity model: a numpy shape together with the flattened data.  A
scalar has shape []. -/
structure Quantity where
  shape : List ℕ
  data : List ℝ

/-- Squeeze on a Quantity: axes of length one are removed from the shape. -/
def qSqueeze (q : Quantity) : Quantity :=
  ⟨q.shape.filter (fun n => n ≠ 1), q.data⟩

/-- Scalar value carried by a Quantity (its first datum). -/
def qVal (q : Quantity) : ℝ := q.data.headD 0

/-- Python objects that can reach the method argument: None, a string, or
anything else. -/
inductive PyObj : Type where
  | none
  | str (s : String)
  | otherObj
deriving DecidableEq

/-- Error kinds of the embedded timescale functions.  isinstanceArg2 models
the TypeError CPython raises when the second argument of isinstance is not
a type (in validate.method it is the literal None).  missingMethodArg
models the TypeError Python raises when Hellinger_2016 calls
Hellinger_2009 without its fifth required positional argument. -/
inductive PyErr : Type where
  | niNotQuantity
  | niShape
  | niSign
  | ionsNotCharged
  | ionsCount
  | speedsCount
  | speedsLenUnsized
  | tempShape
  | tempSign
  | isinstanceArg2
  | methodType
  | tparZero
  | indexError
  | missingMethodArg
deriving DecidableEq

/-- Class-info expressions appearing as second isinstance argument in
validate.method: the literal None (not a type) and the type str. -/
inductive ClassInfo : Type where
  | noneLit
  | strType

/-- Model of CPython isinstance: if the class-info argument is not a type,
a TypeError is raised no matter what the first argument is; against the
type str the check reports whether the object is a string. -/
def pyIsinstance (x : PyObj) : ClassInfo → Except PyErr Bool
  | .noneLit => .error .isinstanceArg2
  | .strType => .ok (match x with | .str _ => true | _ => false)

/-- Embedded validate.n_i (timescales.py lines 29-54): squeeze, require a
scalar, require a positive value.  The isinstance Quantity and int/float
checks pass for every Quantity input (a zero-dimensional numpy value is a
numpy float, which subclasses float). -/
def validateNi (n_i : Quantity) : Except PyErr Quantity :=
  let n := qSqueeze n_i
  if n.shape ≠ [] then .error .niShape
  else if ¬ 0 < qVal n then .error .niSign
  else .ok n

/-- Embedded validate.ions (timescales.py lines 57-79): every entry must be
an ion with nonzero charge, and exactly two entries are required. -/
def validateIons (ions : List Particle) : Except PyErr (List Particle) :=
  if ¬ ions.all (fun p => p.is_ion && decide (0 < |p.charge_number|)) then
    .error .ionsNotCharged
  else if ions.length ≠ 2 then .error .ionsCount
  else .ok ions

/-- Embedded validate.speeds (timescales.py lines 82-91): len(speeds) must
be 2; len() of a zero-dimensional Quantity itself raises TypeError. -/
def validateSpeeds (speeds : Quantity) : Except PyErr Quantity :=
  match speeds.shape with
  | [] => .error .speedsLenUnsized
  | n :: _ => if n ≠ 2 then .error .speedsCount else .ok speeds

/-- Embedded validate.temp (timescales.py lines 96-116): shape must be ()
and the value must be positive (the int/float isinstance check passes for
numpy scalars). -/
def validateTemp (T : Quantity) : Except PyErr Quantity :=
  if T.shape ≠ [] then .error .tempShape
  else if ¬ 0 < qVal T then .error .tempSign
  else .ok T

/-- Embedded validate.method (timescales.py lines 118-127): the code first
evaluates isinstance(method, None); if that returned false it would test
isinstance(method, str), raise TypeError for a non-string and fall off the
end of the function, which in Python yields None. -/
def validateMethod (m : PyObj) : Except PyErr PyObj :=
  match pyIsinstance m ClassInfo.noneLit with
  | .error e => .error e
  | .ok b =>
    if b then .ok (.str "classical")
    else
      match pyIsinstance m ClassInfo.strType with
      | .error e => .error e
      | .ok b2 => if !b2 then .error .methodType else .ok .none

/-- Indexing q[i] on a Quantity: a zero-dimensional Quantity cannot be
indexed (IndexError), otherwise the leading axis is indexed. -/
def qIndex (q : Quantity) (i : ℕ) : Except PyErr ℝ :=
  match q.shape with
  | [] => .error .indexError
  | n :: _ => if i < n then .ok (q.data.getD i 0) else .error .indexError

/-- External Coulomb logarithm collaborator consumed by Hellinger_2009:
coulomb.Coulomb_logarithm(T, n_i, ions, method). -/
def CoulombFn : Type := Quantity → Quantity → List Particle → PyObj → ℝ

/-- Value of astropy.constants.si.eps0 in SI units. -/
def eps0 : ℝ := 8.8541878128e-12

/-- Embedded Hellinger_2009 (timescales.py lines 316-336): validate the
five arguments in order, then evaluate the closed-form collision frequency
times the Coulomb logarithm provided by the external collaborator. -/
def hellinger2009 (cf : CoulombFn) (T n_i : Quantity) (ions : List Particle)
    (par_speeds : Quantity) (m : PyObj) : Except PyErr ℝ :=
  match validateTemp T with
  | .error e => .error e
  | .ok T1 =>
    match validateNi n_i with
    | .error e => .error e
    | .ok ni =>
      match validateIons ions with
      | .error e => .error e
      | .ok ions1 =>
        match validateSpeeds par_speeds with
        | .error e => .error e
        | .ok ps =>
          match validateMethod m with
          | .error e => .error e
          | .ok m2 =>
            let v_par := Real.sqrt
              ((ps.data.getD 0 0 ^ 2 + ps.data.getD 1 0 ^ 2) / 2)
            let a := (ions1.getD 0 electron).charge ^ 2 *
              (ions1.getD 1 electron).charge ^ 2 * qVal ni
            let b := 12 * Real.pi ^ (1.5 : ℝ) *
              ((ions1.getD 0 electron).mass * (ions1.getD 1 electron).mass) *
              eps0 ^ 2 * v_par ^ 3
            .ok (a / b * cf T1 ni ions1 m2)

/-- Embedded Hellinger_2016 (timescales.py lines 622-650): validate all
seven arguments in order; after the T_par zero test the body computes Ast,
whose evaluation indexes T_perp[1] and T_par[1] on quantities that
validate.temp forced to be zero-dimensional (IndexError), and the return
expression calls Hellinger_2009 with only four of its five required
positional arguments (TypeError for the missing method argument). -/
def hellinger2016 (T_par T_perp n_i : Quantity) (ions : List Particle)
    (par_speeds perp_speeds : Quantity) (m : PyObj) : Except PyErr ℝ :=
  match validateTemp T_par with
  | .error e => .error e
  | .ok Tpar =>
    match validateTemp T_perp with
    | .error e => .error e
    | .ok Tperp =>
      match validateNi n_i with
      | .error e => .error e
      | .ok _ =>
        match validateIons ions with
        | .error e => .error e
        | .ok _ =>
          match validateSpeeds par_speeds with
          | .error e => .error e
          | .ok _ =>
            match validateSpeeds perp_speeds with
            | .error e => .error e
            | .ok _ =>
              match validateMethod m with
              | .error e => .error e
              | .ok _ =>
                if qVal Tpar = 0 then .error .tparZero
                else
                  match qIndex Tperp 1 with
                  | .error e => .error e
                  | .ok _ =>
                    match qIndex Tpar 1 with
                    | .error e => .error e
                    | .ok _ => .error .missingMethodArg

/-!
Concrete collaborator instances used by individual claims.
-/

/-- Wave frequency used by the polynomial-scaling counterexample:
w = (3/4) c, so that c / w = 4 / 3 exactly. -/
def w0C1 : ℝ := 3 * c_si_unitless / 4

/-- Plasma-frequency collaborator returning w0C1 / 2 for every species. -/
def pfC1 : ℝ → Particle → ℝ := fun _ _ => w0C1 / 2

/-- Gyrofrequency collaborator returning 0 (an unmagnetised plasma). -/
def gf0 : ℝ → Particle → ℝ := fun _ _ => 0

/-- Root-finder instance that returns the coefficient list itself (as
complex numbers); plugging it into the pipeline exposes exactly which
polynomial the code hands to numpy.roots. -/
def revealSolver : List ℝ → List ℂ := fun cs => cs.map (fun x => (x : ℂ))

/-- Plasma-frequency collaborator returning 1 for every species. -/
def pfC3 : ℝ → Particle → ℝ := fun _ _ => 1

/-- Gyrofrequency collaborator returning 1 for every species. -/
def gfC3 : ℝ → Particle → ℝ := fun _ _ => 1

/-- Root-finder instance with the length behaviour of numpy.roots: it
returns npRootsLen many (dummy) roots. -/
def solverLen : List ℝ → List ℂ := fun cs => List.replicate (npRootsLen cs) 0

/-!
Helper lemmas.
-/

/-- Closed form of the S, P, D accumulation loop, for any starting value. -/
theorem spdFoldlEq (w : ℝ) (l : List (ℝ × ℝ)) :
    ∀ init : ℝ × ℝ × ℝ,
      l.foldl
        (fun SPD p =>
          (SPD.1 - p.1 ^ 2 / (w ^ 2 + p.2 ^ 2),
           SPD.2.1 - (p.1 / w) ^ 2,
           SPD.2.2 + p.1 ^ 2 / (w ^ 2 + p.2 ^ 2) * (p.2 / w))) init
      = (init.1 - (l.map (fun p => p.1 ^ 2 / (w ^ 2 + p.2 ^ 2))).sum,
         init.2.1 - (l.map (fun p => (p.1 / w) ^ 2)).sum,
         init.2.2 + (l.map (fun p => p.1 ^ 2 / (w ^ 2 + p.2 ^ 2) * (p.2 / w))).sum) := by
  induction l with
  | nil => intro init; simp
  | cons p l ih =>
      intro init
      rw [List.foldl_cons, ih]
      simp only [List.map_cons, List.sum_cons, Prod.mk.injEq]
      refine ⟨by ring, by ring, by ring⟩

/-- The accumulated Stix parameters equal the spec-side closed forms. -/
theorem stixSPDEq (wps wcs : List ℝ) (w : ℝ) :
    stixSPD wps wcs w = (specS wps wcs w, specP wps wcs w, specD wps wcs w) := by
  unfold stixSPD specS specP specD
  rw [spdFoldlEq]
  simp

/-- Keys of a python-dict insertion step. -/
theorem mapFstPydictInsert {α : Type} (acc : List (ℝ × α)) (kv : ℝ × α) :
    (pydictInsert acc kv).map Prod.fst =
      if kv.1 ∈ acc.map Prod.fst then acc.map Prod.fst
      else acc.map Prod.fst ++ [kv.1] := by
  unfold pydictInsert
  split
  · rw [List.map_map]
    refine List.map_congr_left (fun p _ => ?_)
    by_cases h : p.1 = kv.1 <;> simp [h]
  · simp

/-- Invariant of the python-dict fold: key lists stay duplicate-free and
keys accumulate by membership. -/
theorem pydictFoldlKeys {α : Type} (ps : List (ℝ × α)) :
    ∀ acc : List (ℝ × α),
      ((acc.map Prod.fst).Nodup → ((ps.foldl pydictInsert acc).map Prod.fst).Nodup)
      ∧ ∀ t, t ∈ (ps.foldl pydictInsert acc).map Prod.fst ↔
          t ∈ acc.map Prod.fst ∨ t ∈ ps.map Prod.fst := by
  induction ps with
  | nil => intro acc; simp
  | cons kv ps ih =>
      intro acc
      rw [List.foldl_cons]
      constructor
      · intro hnd
        refine (ih (pydictInsert acc kv)).1 ?_
        rw [mapFstPydictInsert]
        split
        · exact hnd
        · rename_i hmem
          simp [List.nodup_append, hnd, hmem]
      · intro t
        rw [(ih (pydictInsert acc kv)).2 t, mapFstPydictInsert]
        split
        · rename_i hmem
          simp only [List.map_cons, List.mem_cons]
          constructor
          · tauto
          · rintro (h | h | h)
            · tauto
            · subst h; tauto
            · tauto
        · simp only [List.mem_append, List.mem_singleton, List.map_cons,
            List.mem_cons]
          tauto

/-- Keys of a python dict are duplicate-free. -/
theorem pydictKeysNodup {α : Type} (ps : List (ℝ × α)) :
    ((pydict ps).map Prod.fst).Nodup :=
  (pydictFoldlKeys ps []).1 (by simp)

/-- Membership in the keys of a python dict. -/
theorem pydictKeysMem {α : Type} (ps : List (ℝ × α)) (t : ℝ) :
    t ∈ (pydict ps).map Prod.fst ↔ t ∈ ps.map Prod.fst := by
  have h := (pydictFoldlKeys ps []).2 t
  simpa [pydict] using h

/-- The isinstance call with the literal None as class-info makes
validate.method raise TypeError on every input. -/
theorem validateMethodErr (m : PyObj) :
    validateMethod m = .error .isinstanceArg2 := rfl

/-!
Claim theorems.
-/

/-- C2: the stix parameter loop computes S = 1 - sum wp^2/(w^2 + wc^2),
P = 1 - sum (wp/w)^2 and D = sum (wp^2/(w^2 + wc^2)) (wc/w) over the
species, and the angular stage uses R = S + D and L = S - D derived from
them. -/
theorem stix_SPD_closed_form (wps wcs : List ℝ) (w : ℝ) (hw : 0 < w) :
    stixSPD wps wcs w = (specS wps wcs w, specP wps wcs w, specD wps wcs w)
  ∧ ∀ θ : ℝ,
      stixABC wps wcs w θ =
        (specS wps wcs w * Real.sin θ ^ 2 + specP wps wcs w * Real.cos θ ^ 2,
         -((specS wps wcs w + specD wps wcs w) *
             (specS wps wcs w - specD wps wcs w) * Real.sin θ ^ 2 +
           specP wps wcs w * specS wps wcs w * (1 + Real.cos θ ^ 2)),
         specP wps wcs w * (specS wps wcs w + specD wps wcs w) *
           (specS wps wcs w - specD wps wcs w)) := by
  refine ⟨stixSPDEq wps wcs w, fun θ => ?_⟩
  simp only [stixABC, stixSPDEq wps wcs w]

/-- Witness for C2 at a concrete species list and frequency. -/
theorem stix_SPD_closed_form_witness :
    0 < (1 : ℝ) ∧
    (stixSPD [3, 4] [0, 5] 1 = (specS [3, 4] [0, 5] 1, specP [3, 4] [0, 5] 1,
        specD [3, 4] [0, 5] 1)
    ∧ ∀ θ : ℝ,
        stixABC [3, 4] [0, 5] 1 θ =
          (specS [3, 4] [0, 5] 1 * Real.sin θ ^ 2 +
             specP [3, 4] [0, 5] 1 * Real.cos θ ^ 2,
           -((specS [3, 4] [0, 5] 1 + specD [3, 4] [0, 5] 1) *
               (specS [3, 4] [0, 5] 1 - specD [3, 4] [0, 5] 1) *
               Real.sin θ ^ 2 +
             specP [3, 4] [0, 5] 1 * specS [3, 4] [0, 5] 1 *
               (1 + Real.cos θ ^ 2)),
           specP [3, 4] [0, 5] 1 * (specS [3, 4] [0, 5] 1 + specD [3, 4] [0, 5] 1) *
             (specS [3, 4] [0, 5] 1 - specD [3, 4] [0, 5] 1))) :=
  ⟨by norm_num, stix_SPD_closed_form [3, 4] [0, 5] 1 (by norm_num)⟩

/-- C6: for every validated ion list exactly one electron species is
appended, and the density stored for it is the quasineutrality sum of
ion density times charge number. -/
theorem stix_electron_append (ions : List Particle) (ni : List ℝ)
    (h : checkIons ions = .ok ()) :
    stixSpecies ions = ions ++ [electron]
  ∧ (stixSpecies ions).countP (fun p => !p.is_ion) = 1
  ∧ (stixDensities ni ions).getLast? =
      some (((ni.zip ions).map (fun p => p.1 * (p.2.charge_number : ℝ))).sum) := by
  have hall : ions.all (fun p => p.is_ion && decide (0 < p.charge_number)) = true := by
    by_contra hna
    simp only [checkIons, hna] at h
    exact absurd h (by simp)
  refine ⟨rfl, ?_, ?_⟩
  · unfold stixSpecies
    rw [List.countP_append]
    have hz : ions.countP (fun p => !p.is_ion) = 0 := by
      rw [List.countP_eq_zero]
      intro p hp
      have := List.all_eq_true.mp hall p hp
      simp only [Bool.and_eq_true] at this
      simp [this.1]
    rw [hz]
    simp [electron]
  · unfold stixDensities
    exact List.getLast?_concat _

/-- Witness for C6 with one proton of density 2. -/
theorem stix_electron_append_witness :
    checkIons [proton] = .ok () ∧
    (stixSpecies [proton] = [proton] ++ [electron]
    ∧ (stixSpecies [proton]).countP (fun p => !p.is_ion) = 1
    ∧ (stixDensities [2] [proton]).getLast? =
        some ((([(2 : ℝ)].zip [proton]).map
          (fun p => p.1 * (p.2.charge_number : ℝ))).sum)) :=
  ⟨rfl, stix_electron_append [proton] [2] rfl⟩

/-- Broadcast of the scalar density equals an explicitly replicated
density vector after normalisation. -/
theorem normNiBroadcast (n : ℝ) (k : ℕ) :
    normNi (.oneD (List.replicate k n)) k = normNi (.scalar n) k := by
  match k with
  | 0 => simp [normNi]
  | 1 => simp [normNi]
  | (k + 2) => simp [normNi]

/-- C7: calling stix with a scalar density gives the same result map as
calling it with that density replicated once per ion. -/
theorem stix_density_broadcast (pf gf : ℝ → Particle → ℝ)
    (solver : List ℝ → List ℂ) (sorter : List ℂ → List ℂ)
    (Bf w th : NDIn) (ions : List Particle) (n : ℝ) (hn : 0 < n) :
    stixRun pf gf solver sorter Bf w (.scalar n) th ions
      = stixRun pf gf solver sorter Bf w (.oneD (List.replicate ions.length n)) th ions := by
  unfold stixRun
  have h1 : checkNi (.scalar n) ions.length = .ok () := rfl
  have h2 : checkNi (.oneD (List.replicate ions.length n)) ions.length = .ok () := by
    simp [checkNi]
  rw [h1, h2, normNiBroadcast]

/-- Witness for C7 with one proton and scalar density 2. -/
theorem stix_density_broadcast_witness :
    0 < (2 : ℝ) ∧
    stixRun pfC1 gf0 revealSolver id (.scalar 0) (.scalar 1) (.scalar 2)
        (.scalar 0) [proton]
      = stixRun pfC1 gf0 revealSolver id (.scalar 0) (.scalar 1)
        (.oneD (List.replicate [proton].length 2)) (.scalar 0) [proton] :=
  ⟨by norm_num, stix_density_broadcast pfC1 gf0 revealSolver id (.scalar 0)
    (.scalar 1) (.scalar 0) [proton] 2 (by norm_num)⟩

/-- C8: stix raises the invalid-species error exactly when some supplied
species is not a positively charged ion, and the timescale validator
raises exactly when some species is not a charged ion or the species
count differs from two. -/
theorem invalid_species_raise_iff (ions : List Particle) :
    ((∃ e, checkIons ions = .error e) ↔
      ∃ p ∈ ions, ¬(p.is_ion = true ∧ 0 < p.charge_number))
  ∧ ((∃ e, validateIons ions = .error e) ↔
      ((∃ p ∈ ions, ¬(p.is_ion = true ∧ p.charge_number ≠ 0)) ∨
        ions.length ≠ 2)) := by
  constructor
  · have h1 : (∃ e, checkIons ions = .error e) ↔
        ¬ ions.all (fun p => p.is_ion && decide (0 < p.charge_number)) = true := by
      unfold checkIons
      split <;> simp_all
    rw [h1, List.all_eq_true]
    constructor
    · intro hna
      rcases not_forall.mp hna with ⟨p, hp⟩
      rcases Classical.not_imp.mp hp with ⟨hmem, hpred⟩
      exact ⟨p, hmem, fun hc => hpred (by simp [hc.1, hc.2])⟩
    · rintro ⟨p, hmem, hnp⟩ hall
      have hs := hall p hmem
      simp only [Bool.and_eq_true, decide_eq_true_eq] at hs
      exact hnp ⟨hs.1, hs.2⟩
  · have h2 : (∃ e, validateIons ions = .error e) ↔
        (¬ ions.all (fun p => p.is_ion && decide (0 < |p.charge_number|)) = true ∨
          ions.length ≠ 2) := by
      unfold validateIons
      split
      · simp_all
      · split <;> simp_all
    rw [h2, List.all_eq_true]
    constructor
    · rintro (hna | hl)
      · rcases not_forall.mp hna with ⟨p, hp⟩
        rcases Classical.not_imp.mp hp with ⟨hmem, hpred⟩
        refine Or.inl ⟨p, hmem, fun hc => hpred ?_⟩
        have hab : (0 : ℤ) < |p.charge_number| := abs_pos.mpr hc.2
        simp [hc.1, hab]
      · exact Or.inr hl
    · rintro (⟨p, hmem, hnp⟩ | hl)
      · left
        intro hall
        have hs := hall p hmem
        simp only [Bool.and_eq_true, decide_eq_true_eq, abs_pos] at hs
        exact hnp ⟨hs.1, hs.2⟩
      · exact Or.inr hl

/-- C9: the per-angle root array is the same for θ and -θ, because the
coefficients depend on the angle only through squared sine and cosine. -/
theorem stix_angle_sign_symmetry (solver : List ℝ → List ℂ)
    (sorter : List ℂ → List ℂ) (wps wcs : List ℝ) (w θ : ℝ) :
    stixRootsFor solver sorter wps wcs w θ
      = stixRootsFor solver sorter wps wcs w (-θ) := by
  unfold stixRootsFor stixCoeffs stixABC
  simp [Real.sin_neg, Real.cos_neg, neg_sq]

/-- C5: Hellinger_2016 raises an exception on every combination of
arguments and never returns a timescale: its validators force scalar
temperatures yet the body indexes them, the final expression omits the
required method argument of Hellinger_2009, and the method validator
itself always raises. -/
theorem hellinger2016_always_raises (T_par T_perp n_i : Quantity)
    (ions : List Particle) (par_speeds perp_speeds : Quantity) (m : PyObj) :
    ∃ e, hellinger2016 T_par T_perp n_i ions par_speeds perp_speeds m
      = .error e := by
  unfold hellinger2016
  cases validateTemp T_par with
  | error e => exact ⟨e, rfl⟩
  | ok a =>
    cases validateTemp T_perp with
    | error e => exact ⟨e, rfl⟩
    | ok b =>
      cases validateNi n_i with
      | error e => exact ⟨e, rfl⟩
      | ok c =>
        cases validateIons ions with
        | error e => exact ⟨e, rfl⟩
        | ok d =>
          cases validateSpeeds par_speeds with
          | error e => exact ⟨e, rfl⟩
          | ok f =>
            cases validateSpeeds perp_speeds with
            | error e => exact ⟨e, rfl⟩
            | ok g =>
              exact ⟨.isinstanceArg2, by rw [validateMethodErr]⟩

/-- C10 counterexample: on the string input "classical" validate.method
does not fall through to None; the isinstance(method, None) test raises
TypeError first. -/
theorem validate_method_string_cex :
    validateMethod (.str "classical") = .error .isinstanceArg2
  ∧ validateMethod (.str "classical") ≠ .ok .none := by
  refine ⟨rfl, ?_⟩
  rw [validateMethodErr]
  simp

/-- C10 amended: validate.method never yields the caller method — for
every input, string or None alike, isinstance(method, None) raises
TypeError — so Hellinger_2009 always raises during validation, never
reaches the Coulomb-logarithm collaborator, and forwards nothing to it. -/
theorem validate_method_always_raises :
    (∀ m : PyObj, validateMethod m = .error .isinstanceArg2)
  ∧ ∀ (cf cf2 : CoulombFn) (T n_i : Quantity) (ions : List Particle)
      (ps : Quantity) (m : PyObj),
      hellinger2009 cf T n_i ions ps m = hellinger2009 cf2 T n_i ions ps m
      ∧ ∃ e, hellinger2009 cf T n_i ions ps m = .error e := by
  refine ⟨validateMethodErr, ?_⟩
  intro cf cf2 T n_i ions ps m
  unfold hellinger2009
  cases validateTemp T with
  | error e => exact ⟨rfl, e, rfl⟩
  | ok a =>
    cases validateNi n_i with
    | error e => exact ⟨rfl, e, rfl⟩
    | ok b =>
      cases validateIons ions with
      | error e => exact ⟨rfl, e, rfl⟩
      | ok c =>
        cases validateSpeeds ps with
        | error e => exact ⟨rfl, e, rfl⟩
        | ok d =>
          rw [validateMethodErr]
          exact ⟨rfl, .isinstanceArg2, rfl⟩

/-- Stix parameters for two species with plasma frequency w/2 and zero
gyrofrequency: S = P = 1/2 and D = 0. -/
theorem stixSPDhalf (w : ℝ) (hw : w ≠ 0) :
    stixSPD [w / 2, w / 2] [0, 0] w = (1 / 2, 1 / 2, 0) := by
  rw [stixSPDEq]
  unfold specS specP specD
  simp only [List.zip_cons_cons, List.zip_nil_right, List.map_cons,
    List.map_nil, List.sum_cons, List.sum_nil]
  refine Prod.ext ?_ (Prod.ext ?_ ?_) <;> field_simp <;> ring

/-- Angular coefficients at θ = 0 for the C1 instance: A = 1/2, B = -1/2,
C = 1/8. -/
theorem stixABCc1 (w : ℝ) (hw : w ≠ 0) :
    stixABC [w / 2, w / 2] [0, 0] w 0 = (1 / 2, -(1 / 2), 1 / 8) := by
  simp only [stixABC, stixSPDhalf w hw, Real.sin_zero, Real.cos_zero]
  norm_num

/-- Coefficient list handed to numpy.roots in the C1 instance: with
w = (3/4) c the factor arg_ = c/w is 4/3, so the list is
[2/3, 0, -2/3, 0, 1/8]. -/
theorem stixCoeffsC1 :
    stixCoeffs [w0C1 / 2, w0C1 / 2] [0, 0] w0C1 0
      = [2 / 3, 0, -(2 / 3), 0, 1 / 8] := by
  have hw : w0C1 ≠ 0 := by unfold w0C1 c_si_unitless; norm_num
  simp only [stixCoeffs, stixABCc1 w0C1 hw]
  unfold w0C1 c_si_unitless
  norm_num

/-- C1: the root stage does not solve the documented biquadratic.  At the
concrete valid input (B = 0, w = (3/4) c, one proton of density 1, θ = 0,
collaborator frequencies wp = w/2 and wc = 0 for every species) the
pipeline hands numpy.roots the coefficient list [2/3, 0, -2/3, 0, 1/8]
(exposed by instantiating the solver with revealSolver); the angular
coefficients are A = 1/2, B = -1/2, C = 1/8; the value 1/2 is an exact
root of the polynomial the code solves, hence is among the returned
wavenumbers; re-reducing it to x = c k / w and substituting into
A x^4 + B x^2 + C leaves the residual 1/648, not 0. -/
theorem stix_polynomial_scaling_code_bug :
    stixRun pfC1 gf0 revealSolver id (.scalar 0) (.scalar w0C1) (.scalar 1)
        (.scalar 0) [proton]
      = .ok [((0 : ℝ), revealSolver [2 / 3, 0, -(2 / 3), 0, 1 / 8])]
  ∧ stixABC [w0C1 / 2, w0C1 / 2] [0, 0] w0C1 0 = (1 / 2, -(1 / 2), 1 / 8)
  ∧ evalPoly [2 / 3, 0, -(2 / 3), 0, 1 / 8] (1 / 2) = 0
  ∧ specBiquadResidual (1 / 2) (-(1 / 2)) (1 / 8)
      (c_si_unitless * (1 / 2) / w0C1) = 1 / 648 := by
  have hwne : w0C1 ≠ 0 := by unfold w0C1 c_si_unitless; norm_num
  refine ⟨?_, stixABCc1 w0C1 hwne, ?_, ?_⟩
  · have hW : checkW (.scalar w0C1) = .ok [w0C1] := by
      show (if w0C1 ≤ 0 then (.error .wSign : Except StixErr (List ℝ))
        else .ok [w0C1]) = .ok [w0C1]
      rw [if_neg]
      unfold w0C1 c_si_unitless
      norm_num
    unfold stixRun
    rw [show checkIons [proton] = .ok () from rfl,
        show checkNi (.scalar 1) [proton].length = .ok () from rfl,
        show checkB (.scalar 0) = .ok 0 from rfl, hW,
        show checkTheta (.scalar 0) = .ok [0] from rfl]
    simp only [normNi, stixSpecies, stixDensities, List.replicate,
      List.singleton_append, List.cons_append, List.nil_append,
      List.zip_cons_cons, List.zip_nil_right, List.map_cons, List.map_nil,
      List.sum_cons, List.sum_nil, List.length_cons, List.length_nil,
      pfC1, gf0, stixRootsFor, id_eq, List.headD_cons,
      lt_self_iff_false, false_and, if_false,
      pydict, pydictInsert, List.foldl_cons, List.foldl_nil,
      List.not_mem_nil, ite_false]
    rw [stixCoeffsC1]
  · unfold evalPoly
    simp only [List.foldl_cons, List.foldl_nil]
    norm_num
  · unfold specBiquadResidual w0C1 c_si_unitless
    norm_num

/-- Stix parameters for two species with wp = wc = w = 1: S = 0, P = -1,
D = 1 (a perpendicular resonance, S = 0). -/
theorem stixSPDres : stixSPD [1, 1] [1, 1] 1 = (0, -1, 1) := by
  rw [stixSPDEq]
  unfold specS specP specD
  norm_num

/-- Angular coefficients at θ = π/2 in the resonant instance: the leading
coefficient A vanishes while B = 1 and C = 1. -/
theorem stixABCres : stixABC [1, 1] [1, 1] 1 (Real.pi / 2) = (0, 1, 1) := by
  simp only [stixABC, stixSPDres, Real.sin_pi_div_two, Real.cos_pi_div_two]
  norm_num

/-- Coefficient list handed to numpy.roots in the resonant instance: the
two leading entries are zero. -/
theorem stixCoeffsRes :
    stixCoeffs [1, 1] [1, 1] 1 (Real.pi / 2) = [0, 0, c_si_unitless, 0, 1] := by
  simp only [stixCoeffs, stixABCres]
  norm_num

/-- C3 counterexample: at a valid input whose leading coefficient A(θ)
vanishes (wp = wc = w for both species, θ = π/2), numpy.roots strips the
leading zeros and the entry stored for the angle holds 2 roots, not 4. -/
theorem stix_degenerate_roots_cex :
    stixCoeffs [1, 1] [1, 1] 1 (Real.pi / 2) = [0, 0, c_si_unitless, 0, 1]
  ∧ npRootsLen [0, 0, c_si_unitless, 0, 1] = 2
  ∧ stixRun pfC3 gfC3 solverLen id (.scalar 1) (.scalar 1) (.scalar 1)
        (.scalar (Real.pi / 2)) [proton]
      = .ok [((Real.pi / 2 : ℝ), List.replicate 2 (0 : ℂ))]
  ∧ (List.replicate 2 (0 : ℂ)).length ≠ 4 := by
  have hlen : npRootsLen [0, 0, c_si_unitless, 0, 1] = 2 := by
    unfold npRootsLen
    rw [if_pos rfl]
    unfold npRootsLen
    rw [if_pos rfl]
    unfold npRootsLen
    rw [if_neg (by unfold c_si_unitless; norm_num)]
    rfl
  refine ⟨stixCoeffsRes, hlen, ?_, by simp⟩
  have hW : checkW (.scalar 1) = .ok [1] := by
    show (if (1 : ℝ) ≤ 0 then (.error .wSign : Except StixErr (List ℝ))
      else .ok [1]) = .ok [1]
    rw [if_neg (by norm_num)]
  unfold stixRun
  rw [show checkIons [proton] = .ok () from rfl,
      show checkNi (.scalar 1) [proton].length = .ok () from rfl,
      show checkB (.scalar 1) = .ok 1 from rfl, hW,
      show checkTheta (.scalar (Real.pi / 2)) = .ok [Real.pi / 2] from rfl]
  simp only [normNi, stixSpecies, stixDensities, List.replicate,
    List.singleton_append, List.cons_append, List.nil_append,
    List.zip_cons_cons, List.zip_nil_right, List.map_cons, List.map_nil,
    List.sum_cons, List.sum_nil, List.length_cons, List.length_nil,
    pfC3, gfC3, stixRootsFor, id_eq, List.headD_cons,
    lt_self_iff_false, false_and, if_false,
    pydict, pydictInsert, List.foldl_cons, List.foldl_nil,
    List.not_mem_nil, ite_false]
  rw [show solverLen (stixCoeffs [1, 1] [1, 1] 1 (Real.pi / 2))
      = List.replicate 2 (0 : ℂ) by
    rw [show solverLen (stixCoeffs [1, 1] [1, 1] 1 (Real.pi / 2))
        = List.replicate (npRootsLen (stixCoeffs [1, 1] [1, 1] 1 (Real.pi / 2))) 0
      from rfl, stixCoeffsRes, hlen]]
  rfl

/-- C3 amended: the result map has one entry per distinct supplied angle;
an entry holds 4 roots exactly when the leading coefficient of the list
handed to numpy.roots is nonzero, and in general it holds as many roots
as numpy.roots returns after stripping leading zero coefficients. -/
theorem stix_roots_count_amended (solver : List ℝ → List ℂ)
    (sorter : List ℂ → List ℂ)
    (hsol : ∀ cs, (solver cs).length = npRootsLen cs)
    (hsort : ∀ l : List ℂ, (sorter l).length = l.length)
    (wps wcs : List ℝ) (w θ : ℝ) (thetas : List ℝ) (f : ℝ → List ℂ) :
    (stixRootsFor solver sorter wps wcs w θ).length
      = npRootsLen (stixCoeffs wps wcs w θ)
  ∧ ((stixCoeffs wps wcs w θ).headD 0 ≠ 0 →
      (stixRootsFor solver sorter wps wcs w θ).length = 4)
  ∧ ((pydict (thetas.map (fun t => (t, f t)))).map Prod.fst).Nodup
  ∧ ∀ t, t ∈ (pydict (thetas.map (fun t => (t, f t)))).map Prod.fst ↔
      t ∈ thetas := by
  have h1 : (stixRootsFor solver sorter wps wcs w θ).length
      = npRootsLen (stixCoeffs wps wcs w θ) := by
    unfold stixRootsFor
    rw [hsort, hsol]
  refine ⟨h1, ?_, pydictKeysNodup _, fun t => ?_⟩
  · intro hne
    rw [h1]
    have hc : stixCoeffs wps wcs w θ
        = (stixCoeffs wps wcs w θ).headD 0 ::
          [0, c_si_unitless / w * (stixABC wps wcs w θ).2.1, 0,
            (stixABC wps wcs w θ).2.2] := rfl
    rw [hc]
    unfold npRootsLen
    rw [if_neg hne]
    rfl
  · rw [pydictKeysMem, List.map_map]
    simp

/-- Witness for the amended C3 theorem using the numpy-length solver. -/
theorem stix_roots_count_amended_witness :
    (∀ cs, (solverLen cs).length = npRootsLen cs)
  ∧ (∀ l : List ℂ, (id l).length = l.length)
  ∧ ((stixRootsFor solverLen id [1] [1] 1 0).length
        = npRootsLen (stixCoeffs [1] [1] 1 0)
    ∧ ((stixCoeffs [1] [1] 1 0).headD 0 ≠ 0 →
        (stixRootsFor solverLen id [1] [1] 1 0).length = 4)
    ∧ ((pydict (([0] : List ℝ).map
          (fun t => (t, (fun _ : ℝ => ([] : List ℂ)) t)))).map Prod.fst).Nodup
    ∧ ∀ t, t ∈ (pydict (([0] : List ℝ).map
          (fun t => (t, (fun _ : ℝ => ([] : List ℂ)) t)))).map Prod.fst ↔
        t ∈ ([0] : List ℝ)) :=
  ⟨fun cs => by simp [solverLen], fun l => rfl,
    stix_roots_count_amended solverLen id (fun cs => by simp [solverLen])
      (fun l => rfl) [1] [1] 1 0 [0] (fun _ => [])⟩

/-- C4: a two-dimensional density array is rejected with the shape error,
and a one-dimensional density of the wrong length likewise; but a
two-dimensional angle array makes the raise statement evaluate an
f-string that references the unassigned local k, so the call dies with
UnboundLocalError instead of the intended TypeError shape error. -/
theorem stix_theta_shape_code_bug :
    stixRun pfC1 gf0 revealSolver id (.scalar 0) (.scalar 1)
        (.twoD [[1], [2]]) (.scalar 0) [proton] = .error .niShape
  ∧ (∀ (k : ℕ) (xs : List ℝ),
      checkNi (.oneD xs) k = .error .niLength ↔ xs.length ≠ k)
  ∧ stixRun pfC1 gf0 revealSolver id (.scalar 0) (.scalar 1) (.scalar 1)
        (.twoD [[1, 2], [3, 4]]) [proton] = .error .thetaNameErrorK := by
  refine ⟨rfl, ?_, ?_⟩
  · intro k xs
    show (if xs.length ≠ k then (.error .niLength : Except StixErr Unit)
      else .ok ()) = .error .niLength ↔ xs.length ≠ k
    by_cases h : xs.length ≠ k
    · rw [if_pos h]
      simp [h]
    · rw [if_neg h]
      simp [h]
  · have hW : checkW (.scalar 1) = .ok [1] := by
      show (if (1 : ℝ) ≤ 0 then (.error .wSign : Except StixErr (List ℝ))
        else .ok [1]) = .ok [1]
      rw [if_neg (by norm_num)]
    unfold stixRun
    rw [show checkIons [proton] = .ok () from rfl,
        show checkNi (.scalar 1) [proton].length = .ok () from rfl,
        show checkB (.scalar 0) = .ok 0 from rfl, hW,
        show checkTheta (.twoD [[1, 2], [3, 4]]) = .error .thetaNameErrorK
          from rfl]

end
